import Mathlib

/- Verification development for the RaJePy jet-model core (classes.py).

   The numeric model: IEEE double values appearing in the code are embedded
   as the type F below, a rational number or NaN.  NaN propagates through
   every arithmetic operation and every comparison with NaN is false, as in
   IEEE-754.  IEEE infinities are collapsed into NaN (the code itself sends
   ±inf to NaN via numpy nan_to_num wherever an infinity can reach a cached
   field); exact real arithmetic on finite values is modelled by exact
   rational arithmetic.  Transcendental primitives (exp, sin, cos, tan,
   sqrt, log, radians, float power) and the maths helper modules of the
   repository that are not part of the sources (RaJePy.maths.geometry,
   RaJePy.maths.physics, RaJePy.maths.rrls) are carried as fields of an
   environment structure Env, abstract except where the spec gives a
   closed form. -/

namespace RaJePy

/-- Embedded IEEE double: either NaN or a finite value (a rational). -/
inductive F where
  | nan : F
  | fin : ℚ → F
deriving DecidableEq, Repr

namespace F

/-- Addition; NaN absorbs, as in IEEE-754. -/
def add : F → F → F
  | nan, _ => nan
  | _, nan => nan
  | fin a, fin b => fin (a + b)

/-- Subtraction; NaN absorbs. -/
def sub : F → F → F
  | nan, _ => nan
  | _, nan => nan
  | fin a, fin b => fin (a - b)

/-- Multiplication; NaN absorbs (0 * NaN = NaN as in IEEE-754). -/
def mul : F → F → F
  | nan, _ => nan
  | _, nan => nan
  | fin a, fin b => fin (a * b)

/-- Division; NaN absorbs, and division by zero yields NaN (the model
collapses IEEE infinities into NaN). -/
def div : F → F → F
  | nan, _ => nan
  | _, nan => nan
  | fin a, fin b => if b = 0 then nan else fin (a / b)

/-- Negation; NaN absorbs. -/
def neg : F → F
  | nan => nan
  | fin a => fin (-a)

/-- Strict greater-than comparison; any comparison with NaN is false, so
numpy (x > 0) is false on NaN entries. -/
def gt : F → F → Bool
  | fin a, fin b => decide (b < a)
  | _, _ => false

/-- Value used for this entry by a NaN-aware sum: NaN contributes zero. -/
def toQ : F → ℚ
  | nan => 0
  | fin q => q

instance : Add F := ⟨add⟩
instance : Sub F := ⟨sub⟩
instance : Mul F := ⟨mul⟩
instance : Div F := ⟨div⟩
instance : Neg F := ⟨neg⟩

end F

/-- Elementwise numpy.where with a boolean condition. -/
def fwhere (c : Bool) (a b : F) : F := if c then a else b

/-- Abstract numeric environment: float primitives and the routines of the
RaJePy.maths modules, which are not among the provided sources.  Fields
rwp, rho, reff, t_rw and gffq are modelled from the spec as abstract
functions (the spec gives no closed form for them); the transcendental
fields model the numpy routines on finite arguments.  Physical constants
(scipy.constants and RaJePy.cnsts) are carried as rational parameters. -/
structure Env where
  powq : ℚ → ℚ → ℚ
  expq : ℚ → ℚ
  sinq : ℚ → ℚ
  cosq : ℚ → ℚ
  tanq : ℚ → ℚ
  sqrtq : ℚ → ℚ
  logq : ℚ → ℚ
  radq : ℚ → ℚ
  rwp : ℚ → ℚ → ℚ → ℚ → ℚ → ℚ × ℚ × ℚ
  rho : ℚ → ℚ → ℚ → ℚ
  reff : ℚ → ℚ → ℚ
  t_rw : ℚ → ℚ → ℚ
  gffq : ℚ → ℚ → ℚ
  au : ℚ
  parsec : ℚ
  yr : ℚ
  G : ℚ
  MSOL : ℚ

/-- Float power with an F base and a finite exponent; numpy gives
NaN ** 0.0 = 1.0 and NaN ** e = NaN otherwise. -/
def powF (E : Env) : F → ℚ → F
  | F.nan, e => if e = 0 then F.fin 1 else F.nan
  | F.fin a, e => F.fin (E.powq a e)

/-- Model parameters of JetModel (the params dict), restricted to the
fields the claims touch. -/
structure JetParams where
  dist : ℚ
  M_star : ℚ
  R_1 : ℚ
  R_2 : ℚ
  c_size : ℚ
  eps : ℚ
  w_0 : ℚ
  r_0 : ℚ
  mod_r_0 : ℚ
  inc : ℚ
  pa : ℚ
  q_v : ℚ
  q_T : ℚ
  q_x : ℚ
  q_n : ℚ
  q_nd : ℚ
  q_vd : ℚ
  q_xd : ℚ
  v_0 : ℚ
  x_0 : ℚ
  T_0 : ℚ
  n_0 : ℚ

/-- One ejection event, as recorded by JetModel.add_ejection_event. -/
structure Event where
  t_0 : ℚ
  peak_jml : ℚ
  half_life : ℚ
deriving DecidableEq, Repr

/-- Gaussian sigma of an event, from add_ejection_event.func2:
half_life * 2 / (2 * sqrt(2 * log 2)). -/
def sigma_e (E : Env) (e : Event) : ℚ :=
  e.half_life * 2 / (2 * E.sqrtq (2 * E.logq 2))

/-- Jet mass-loss rate as a function of time.  The source builds this by
wrapping closures: the base function returns the steady-state rate ss and
each add_ejection_event call adds one Gaussian term
(peak_jml - ss) * exp(-(t - t_0)^2 / (2 * sigma^2)); the wrapped closures
evaluate as this left fold over the events in the order they were added. -/
def jml_t (E : Env) (ss : ℚ) (evs : List Event) (t : ℚ) : ℚ :=
  evs.foldl
    (fun acc e =>
      acc + (e.peak_jml - ss) * E.expq (-(t - e.t_0) ^ 2 / (2 * sigma_e E e ^ 2)))
    ss

/-- Modelled from the spec: the jet boundary width function mgeom.w_r
(the module RaJePy.maths.geometry is not among the sources), section 4.1:
w(r) = w_0 * ((|r| + mod_r_0 - r_0) / mod_r_0) ^ epsilon. -/
def w_r (E : Env) (r w_0 mod_r_0 r_0 eps : ℚ) : ℚ :=
  w_0 * E.powq ((|r| + mod_r_0 - r_0) / mod_r_0) eps

/-- Cell diagonal dimension used by the fill-factor quick reject:
sqrt(c_size^2 * 3). -/
def diag (E : Env) (par : JetParams) : ℚ := E.sqrtq (par.c_size ^ 2 * 3)

/-- Centroid quick-reject test of JetModel.fill_factor: the voxel is
skipped when its centroid w-coordinate minus half the cell diagonal
exceeds the jet width at its centroid r-coordinate. -/
def quick_reject (E : Env) (par : JetParams) (rc wc : ℚ) : Bool :=
  decide (wc - (1/2) * diag E par > w_r E rc par.w_0 par.mod_r_0 par.r_0 par.eps)

/-- The eight vertex coordinates of a voxel whose bottom-left-front corner
is (x, y, z), in the order used by the source. -/
def vert_xyz (cs x y z : ℚ) : Fin 8 → ℚ × ℚ × ℚ :=
  ![(x, y, z), (x + cs, y, z), (x, y + cs, z), (x + cs, y + cs, z),
    (x, y, z + cs), (x + cs, y, z + cs), (x, y + cs, z + cs),
    (x + cs, y + cs, z + cs)]

/-- Inside-test for one vertex: transform to (r, w, phi) and require
w <= w(r) and |r| >= r_0. -/
def vert_inside (E : Env) (par : JetParams) (x y z : ℚ) (n : Fin 8) : Bool :=
  let p := vert_xyz par.c_size x y z n
  let q := E.rwp p.1 p.2.1 p.2.2 par.inc par.pa
  decide (q.2.1 ≤ w_r E q.1 par.w_0 par.mod_r_0 par.r_0 par.eps) &&
    decide (|q.1| ≥ par.r_0)

/-- Number of the eight vertices inside the jet boundary. -/
def n_inside (E : Env) (par : JetParams) (x y z : ℚ) : ℕ :=
  (List.finRange 8).countP (vert_inside E par x y z)

/-- Final numerical-noise threshold of JetModel.fill_factor:
np.where(v > 1e-6, v, NaN). -/
def thresh (q : ℚ) : F := if q > 1/1000000 then F.fin q else F.nan

/-- Loop body of JetModel.fill_factor for one voxel, before the threshold:
the (fill factor, projected area) pair; skipped voxels keep the zero the
arrays were initialised with. -/
def ff_area_raw (E : Env) (par : JetParams) (rc wc x y z : ℚ) : ℚ × ℚ :=
  if quick_reject E par rc wc then (0, 0)
  else if n_inside E par x y z = 8 then (1, 1)
  else if n_inside E par x y z = 0 then (0, 0)
  else (1/2, 1)

/-- Fill factor and projected area of one voxel as stored by
JetModel.fill_factor after the 1e-6 threshold. -/
def fill_factor_voxel (E : Env) (par : JetParams) (rc wc x y z : ℚ) : F × F :=
  (thresh (ff_area_raw E par rc wc x y z).1,
   thresh (ff_area_raw E par rc wc x y z).2)

/- ------------------------------------------------------------------ -/
/- Derived physical fields.  The grid geometry caches (self.rr, self.ww,
   self.pp, self.rreff) and the fill-factor caches (self.fill_factor,
   self.areas) are carried as per-voxel functions over an abstract voxel
   index type V. -/

/-- Cached per-voxel geometry of a JetModel instance: centroid jet-frame
coordinates r, w, phi, the effective disc radius, and the fill factor and
projected-area arrays. -/
structure Geom (V : Type) where
  rr : V → ℚ
  ww : V → ℚ
  pp : V → ℚ
  rreff : V → ℚ
  ff : V → F
  areas : V → F

/-- Burst state of a JetModel instance: steady-state mass-loss rate, the
recorded ejection events and the current model time. -/
structure Burst where
  ss_jml : ℚ
  evs : List Event
  tnow : ℚ

/-- Time since launch (JetModel.ts): model time minus the travel time
t_rw(r, w) * year, with r values just inside r_0 clamped to the midpoint
between r_0 and the cell edge. -/
def ts_field {V : Type} (E : Env) (par : JetParams) (g : Geom V) (bu : Burst)
    (v : V) : ℚ :=
  let r := |g.rr v|
  let rc := if r < par.r_0 ∧ r + par.c_size / 2 ≥ par.r_0
            then (par.r_0 + r + par.c_size / 2) / 2 else r
  bu.tnow - E.t_rw rc (g.ww v) * E.yr

/-- Burst correction factor chi (JetModel.chi_xyz):
jml_t(ts) / steady-state rate. -/
def chi_xyz {V : Type} (E : Env) (par : JetParams) (g : Geom V) (bu : Burst)
    (v : V) : ℚ :=
  jml_t E bu.ss_jml bu.evs (ts_field E par g bu v) / bu.ss_jml

/-- Zero-to-NaN masking np.where(x == 0, NaN, x); a NaN entry compares
unequal to 0 and is kept. -/
def zero_to_nan : F → F
  | F.nan => F.nan
  | F.fin q => if q = 0 then F.nan else F.fin q

/-- numpy nan_to_num with nan, posinf and neginf all sent to NaN; the
model has no infinities so this is the identity. -/
def nan_to_num_nan (x : F) : F := x

/-- Number density (JetModel.number_density): the power law
n_0 * rho(r)^q_n * (r_eff/R_1)^q^d_n in cgs units, masked to NaN outside
the fill factor, zero-masked, inf/nan-collapsed, then scaled by chi. -/
def number_density {V : Type} (E : Env) (par : JetParams) (g : Geom V)
    (bu : Burst) (v : V) : F :=
  let r1 := par.R_1 * E.au * 100
  let mr0 := par.mod_r_0 * E.au * 100
  let r0 := par.r_0 * E.au * 100
  let nd := F.fin par.n_0 *
    powF E (F.fin (E.rho (g.rr v * E.au * 100) r0 mr0)) par.q_n *
    powF E (F.fin (g.rreff v * E.au * 100 / r1)) par.q_nd
  let nd := fwhere ((g.ff v).gt (F.fin 0)) nd F.nan
  let nd := zero_to_nan nd
  nan_to_num_nan nd * F.fin (chi_xyz E par g bu v)

/-- Ionisation fraction (JetModel.ion_fraction): power law in the clamped
launch-radius coordinate, masked to NaN outside the fill factor and
zero-masked. -/
def ion_fraction {V : Type} (E : Env) (par : JetParams) (g : Geom V)
    (v : V) : F :=
  let mr0 := par.mod_r_0 * E.au * 100
  let r0 := par.r_0 * E.au * 100
  let r := |g.rr v| * E.au * 100
  let r := if r < r0 ∧ r + par.c_size * E.au * 100 / 2 ≥ r0
           then (r0 + r + par.c_size * E.au * 100 / 2) / 2 else r
  let xi := F.fin par.x_0 * powF E (F.fin (E.rho r r0 mr0)) par.q_x *
    powF E (F.fin (g.rreff v / par.R_1)) par.q_xd
  let xi := fwhere ((g.ff v).gt (F.fin 0)) xi F.nan
  nan_to_num_nan (zero_to_nan xi)

/-- Masked near/far cell boundaries along r shared by JetModel.temperature
and JetModel.vel: a = z - 0.5 c, b = z + 0.5 c, both NaN when b <= r_0,
and a clamped up to r_0 otherwise. -/
def span_ab (par : JetParams) (z : ℚ) : F × F :=
  let a := z - par.c_size / 2
  let b := z + par.c_size / 2
  (if b ≤ par.r_0 then F.nan
   else if a ≤ par.r_0 then F.fin par.r_0 else F.fin a,
   if b ≤ par.r_0 then F.nan else F.fin b)

/-- The indefinite_integral helper of JetModel.temperature and
JetModel.vel: c0 * mod_r_0 * ((z + mod_r_0 - r_0)/mod_r_0)^(q+1) / (q+1)
with c0 = T_0 resp. v_0 and q = q_T resp. q_v. -/
def pl_indef (E : Env) (c0 mr0 r0 q : ℚ) (zF : F) : F :=
  F.fin (c0 * mr0) *
    powF E ((zF + F.fin mr0 - F.fin r0) / F.fin mr0) (q + 1) / F.fin (q + 1)

/-- Cell-averaged power law over a masked r-span:
(I(b) - I(a)) / (b - a). -/
def cell_avg (E : Env) (c0 mr0 r0 q : ℚ) (ab : F × F) : F :=
  (pl_indef E c0 mr0 r0 q ab.2 - pl_indef E c0 mr0 r0 q ab.1) / (ab.2 - ab.1)

/-- Temperature (JetModel.temperature): cell-averaged power-law integral
over the voxel's r-span, masked to NaN outside the fill factor. -/
def temperature {V : Type} (E : Env) (par : JetParams) (g : Geom V)
    (v : V) : F :=
  fwhere ((g.ff v).gt (F.fin 0))
    (cell_avg E par.T_0 par.mod_r_0 par.r_0 par.q_T (span_ab par |g.rr v|))
    F.nan

/-- Modelled from the spec: the claimed temperature value, section 4.4 -
the exact cell average (F(b) - F(a)) / (b - a) of the power law
F(z) = T_0 * mod_r_0 * ((z + mod_r_0 - r_0)/mod_r_0)^(q_T+1) / (q_T+1)
with b = |r| + c/2 and a = max(|r| - c/2, r_0). -/
def temperature_spec {V : Type} (E : Env) (par : JetParams) (g : Geom V)
    (v : V) : F :=
  let b := |g.rr v| + par.c_size / 2
  let a := max (|g.rr v| - par.c_size / 2) par.r_0
  let bigF : ℚ → ℚ := fun z =>
    par.T_0 * par.mod_r_0 *
      E.powq ((z + par.mod_r_0 - par.r_0) / par.mod_r_0) (par.q_T + 1) /
      (par.q_T + 1)
  F.fin ((bigF b - bigF a) / (b - a))

/-- Velocity components in km/s (JetModel.vel): the cell-averaged axial
component with lobe-dependent sign, the Keplerian transverse component
split by azimuth, each masked to NaN outside the fill factor, then rotated
into the observer frame by the inclination and position-angle matrices. -/
def velocity {V : Type} (E : Env) (par : JetParams) (g : Geom V)
    (v : V) : F × F × F :=
  let r := |g.rr v|
  let vz :=
    fwhere ((g.ff v).gt (F.fin 0))
      (cell_avg E par.v_0 par.mod_r_0 par.r_0 par.q_v (span_ab par r)) F.nan
  let vr := F.fin (E.sqrtq (E.G * (par.M_star * E.MSOL))) *
    F.fin (E.sqrtq (g.rreff v * E.au)) / F.fin (g.ww v * E.au) *
    powF E (F.fin (E.rho r par.r_0 par.mod_r_0)) par.q_v
  let vx := vr * F.fin (E.sinq (g.pp v)) / F.fin 1000
  let vy := vr * F.fin (E.cosq (g.pp v)) / F.fin 1000
  let vx := (fwhere ((g.ff v).gt (F.fin 0)) vx F.nan).neg
  let vy := fwhere ((g.ff v).gt (F.fin 0)) vy F.nan
  let vz := if g.rr v > 0 then vz else vz.neg
  let vz := fwhere ((g.ff v).gt (F.fin 0)) vz F.nan
  let ci := E.cosq (-(E.radq (90 - par.inc)))
  let si := E.sinq (-(E.radq (90 - par.inc)))
  let cpa := E.cosq (E.radq par.pa)
  let spa := E.sinq (E.radq par.pa)
  let u0 := F.fin cpa * vx + F.fin 0 * vy + F.fin spa * vz
  let u1 := F.fin 0 * vx + F.fin 1 * vy + F.fin 0 * vz
  let u2 := F.fin (-spa) * vx + F.fin 0 * vy + F.fin cpa * vz
  (F.fin 1 * u0 + F.fin 0 * u1 + F.fin 0 * u2,
   F.fin 0 * u0 + F.fin ci * u1 + F.fin (-si) * u2,
   F.fin 0 * u0 + F.fin si * u1 + F.fin ci * u2)

/- ------------------------------------------------------------------ -/
/- Radiative-transfer engine: per-voxel integrands and the NaN-aware
   line-of-sight collapse. -/

/-- Electron density: number_density * ion_fraction. -/
def n_es {V : Type} (E : Env) (par : JetParams) (g : Geom V) (bu : Burst)
    (v : V) : F :=
  number_density E par g bu v * ion_fraction E par g v

/-- Per-voxel emission-measure integrand of JetModel.emission_measure:
(n_e)^2 * (c_size * au / parsec * (fill_factor / areas)). -/
def em_integrand {V : Type} (E : Env) (par : JetParams) (g : Geom V)
    (bu : Burst) (v : V) : F :=
  powF E (n_es E par g bu v) 2 *
    (F.fin (par.c_size * E.au / E.parsec) * (g.ff v / g.areas v))

/-- Free-free Gaunt factor of JetModel.optical_depth_ff: closed-form fit
at constant temperature (q_T = 0), else 11.95 * T^0.15 * nu^-0.1. -/
def gff_grid {V : Type} (E : Env) (par : JetParams) (g : Geom V) (nu : ℚ)
    (v : V) : F :=
  if par.q_T = 0 then F.fin (E.gffq nu par.T_0)
  else F.fin (1195/100) * powF E (temperature E par g v) (15/100) *
    F.fin (E.powq nu (-(1/10)))

/-- Per-voxel free-free optical-depth integrand of
JetModel.optical_depth_ff: 0.018 * T^-1.5 * nu^-2 * n_e^2 *
(c_size * au * 100 * (fill_factor / areas)) * gaunt. -/
def tau_ff_integrand {V : Type} (E : Env) (par : JetParams) (g : Geom V)
    (bu : Burst) (nu : ℚ) (v : V) : F :=
  F.fin (18/1000) * powF E (temperature E par g v) (-(3/2)) *
    F.fin (E.powq nu (-2)) * powF E (n_es E par g bu v) 2 *
    (F.fin (par.c_size * E.au * 100) * (g.ff v / g.areas v)) *
    gff_grid E par g nu v

/-- Per-voxel recombination-line optical-depth integrand of
JetModel.optical_depth_rrl: kappa * (c_size * au * 100 *
(fill_factor / areas)), with the LTE line opacity kappa (mrrl.kappa_l,
module not among the sources) abstract per voxel. -/
def tau_rrl_integrand {V : Type} (E : Env) (par : JetParams) (g : Geom V)
    (kappa : V → F) (v : V) : F :=
  kappa v * (F.fin (par.c_size * E.au * 100) * (g.ff v / g.areas v))

/-- numpy nansum along a line of sight of m voxels: NaN entries contribute
zero and the result is always a (finite) number. -/
def nansum {m : ℕ} (gl : Fin m → F) : ℚ :=
  ((List.finRange m).map fun l => (gl l).toQ).sum

/-- One pixel of the collapsed emission-measure map: nansum of the
integrand over the pixel's line of sight. -/
def em_map {V : Type} (E : Env) (par : JetParams) (g : Geom V) (bu : Burst)
    {m : ℕ} (losline : Fin m → V) : F :=
  F.fin (nansum fun l => em_integrand E par g bu (losline l))

/-- One pixel of the collapsed free-free optical-depth map
(collapse=True). -/
def tau_ff_map {V : Type} (E : Env) (par : JetParams) (g : Geom V)
    (bu : Burst) (nu : ℚ) {m : ℕ} (losline : Fin m → V) : F :=
  F.fin (nansum fun l => tau_ff_integrand E par g bu nu (losline l))

/-- One pixel of the collapsed recombination-line optical-depth map
(collapse=True). -/
def tau_rrl_map {V : Type} (E : Env) (par : JetParams) (g : Geom V)
    (kappa : V → F) {m : ℕ} (losline : Fin m → V) : F :=
  F.fin (nansum fun l => tau_rrl_integrand E par g kappa (losline l))

/- ------------------------------------------------------------------ -/
/- Array-shape semantics of the frequency-vectorised call paths.  numpy
   assignment target[idx] = src broadcasts src into the slot shape. -/

/-- numpy broadcast test for assigning an array of shape src into a slot
of shape dst: align trailing axes; every src axis must match or be 1. -/
def bcast_into (dst src : List ℕ) : Bool :=
  let s := List.replicate (dst.length - src.length) 1 ++ src
  decide (s.length = dst.length) &&
    (dst.zip s).all fun p => decide (p.2 = p.1) || decide (p.2 = 1)

/-- Shape of the per-frequency optical-depth array before any collapse:
the full voxel grid (nx, ny, nz). -/
def integrand_shape (nx ny nz : ℕ) : List ℕ := [nx, ny, nz]

/-- Shape of a collapsed map: nansum along los_axis = 1 (the y-axis, for
the 'ij' array indexing of the source) leaves (nx, nz). -/
def collapsed_shape (nx _ny nz : ℕ) : List ℕ := [nx, nz]

/-- Result shape of JetModel.optical_depth_ff for a scalar frequency. -/
def optical_depth_ff_shape_scalar (nx ny nz : ℕ) (collapse : Bool) :
    List ℕ :=
  if collapse then collapsed_shape nx ny nz else integrand_shape nx ny nz

/-- Result shape of JetModel.optical_depth_ff for an array of nfreq
frequencies: the source preallocates np.empty((nfreq, nx, ny, nx)) when
collapse is False (sic: nx in the last axis) and (nfreq, nx, nz) when
collapse is True, then assigns each per-frequency result into a slot of
the preallocated array; an impossible broadcast is a ValueError. -/
def optical_depth_ff_shape (nfreq nx ny nz : ℕ) (collapse : Bool) :
    Except Unit (List ℕ) :=
  let alloc := if !collapse then [nfreq, nx, ny, nx] else [nfreq, nx, nz]
  let per := if collapse then collapsed_shape nx ny nz
             else integrand_shape nx ny nz
  if bcast_into alloc.tail per then Except.ok alloc else Except.error ()

/-- Result shape of JetModel.optical_depth_rrl for a scalar frequency. -/
def optical_depth_rrl_shape_scalar (nx ny nz : ℕ) (collapse : Bool) :
    List ℕ :=
  if collapse then collapsed_shape nx ny nz else integrand_shape nx ny nz

/-- Result shape of JetModel.optical_depth_rrl for an array of nfreq
frequencies: the source preallocates np.empty((nfreq, nx, nz)) when
collapse is False and np.empty((nfreq, nx, ny, nz)) when collapse is True
- the two branches are inverted relative to optical_depth_ff - then
assigns each per-frequency result into a slot of that array. -/
def optical_depth_rrl_shape (nfreq nx ny nz : ℕ) (collapse : Bool) :
    Except Unit (List ℕ) :=
  let alloc := if !collapse then [nfreq, nx, nz] else [nfreq, nx, ny, nz]
  let per := if collapse then collapsed_shape nx ny nz
             else integrand_shape nx ny nz
  if bcast_into alloc.tail per then Except.ok alloc else Except.error ()

/-- Result shape of JetModel.flux_ff: the array path preallocates
(nfreq, nx, nz) and fills it with the per-frequency scalar-path map of
shape (nx, nz). -/
def flux_ff_shape (nfreq nx ny nz : ℕ) : Except Unit (List ℕ) :=
  if bcast_into [nx, nz] (collapsed_shape nx ny nz)
  then Except.ok [nfreq, nx, nz] else Except.error ()

/- ------------------------------------------------------------------ -/
/- Grid construction: cell counts. -/

/-- Round a cell count up to the next even number, as the list
comprehension in lz_to_grid_dims does. -/
def evenize (n : ℕ) : ℕ := if n % 2 = 0 then n else n + 1

/-- JetModel.lz_to_grid_dims: derive the cell counts from the target
angular jet length l_z by geometric back-projection, pad by the jet width
in cells, and enforce even counts. -/
def lz_to_grid_dims (E : Env) (par : JetParams) (l_z : ℚ) : ℕ × ℕ × ℕ :=
  let cs := par.c_size
  let l_xz := l_z * par.dist
  let xmax := l_xz * E.sinq (E.radq par.pa)
  let ymax := l_xz * E.tanq (1571/1000 - E.radq par.inc)
  let zmax := l_xz * E.cosq (E.radq par.pa)
  let rmax := (E.rwp xmax ymax zmax par.inc par.pa).1
  let wmax := w_r E rmax par.w_0 par.mod_r_0 par.r_0 par.eps
  let wmax_cells := (⌈|wmax / cs|⌉).toNat
  let nx := (⌈|xmax / cs|⌉).toNat + 2 * wmax_cells
  let ny := (⌈|ymax / cs|⌉).toNat + 2 * wmax_cells
  let nz := (⌈|zmax / cs|⌉).toNat + 2 * wmax_cells
  (evenize nx, evenize ny, evenize nz)

/-- Cell-count selection of JetModel.init: when l_z is given it is
converted by lz_to_grid_dims (ignoring any supplied counts), otherwise
each supplied count is rounded up to even via (n + 1) // 2 * 2. -/
def init_grid_dims (E : Env) (par : JetParams) (l_z : Option ℚ)
    (n_x n_y n_z : ℕ) : ℕ × ℕ × ℕ :=
  match l_z with
  | some l => lz_to_grid_dims E par l
  | none => ((n_x + 1) / 2 * 2, (n_y + 1) / 2 * 2, (n_z + 1) / 2 * 2)

/- ------------------------------------------------------------------ -/
/- Concrete instances used by the witness theorems. -/

/-- A concrete environment: every abstract primitive returns 1 (the
transform returns the origin) and every constant is 1. -/
def E0 : Env :=
  ⟨fun _ _ => 1, fun _ => 1, fun _ => 1, fun _ => 1, fun _ => 1,
   fun _ => 1, fun _ => 1, fun _ => 1, fun _ _ _ _ _ => (0, 0, 0),
   fun _ _ _ => 1, fun _ _ => 1, fun _ _ => 1, fun _ _ => 1,
   1, 1, 1, 1, 1⟩

/-- A concrete parameter set with every field 1. -/
def par0 : JetParams :=
  ⟨1, 1, 1, 1, 1, 1, 1, 1, 1, 1, 1, 1, 1, 1, 1, 1, 1, 1, 1, 1, 1, 1⟩

/-- A one-voxel geometry whose fill factor is NaN (an outside-jet
voxel). -/
def g0 : Geom Unit :=
  ⟨fun _ => 1, fun _ => 1, fun _ => 1, fun _ => 1, fun _ => F.nan,
   fun _ => F.fin 1⟩

/-- A one-voxel geometry whose fill factor is 1 (an inside-jet voxel). -/
def g1 : Geom Unit :=
  ⟨fun _ => 1, fun _ => 1, fun _ => 1, fun _ => 1, fun _ => F.fin 1,
   fun _ => F.fin 1⟩

/-- A burst state with no ejection events. -/
def bu0 : Burst := ⟨1, [], 0⟩

/-- A concrete ejection event peaking at t = 0. -/
def ev0 : Event := ⟨0, 5, 1⟩

/-- A second concrete ejection event. -/
def ev1 : Event := ⟨1, 3, 1⟩

/- ------------------------------------------------------------------ -/
/- Helper lemmas about the float model. -/

namespace F

@[simp] theorem nan_add (x : F) : F.nan + x = F.nan := by cases x <;> rfl

@[simp] theorem add_nan (x : F) : x + F.nan = F.nan := by cases x <;> rfl

@[simp] theorem fin_add_fin (a b : ℚ) : F.fin a + F.fin b = F.fin (a + b) :=
  rfl

@[simp] theorem nan_sub (x : F) : F.nan - x = F.nan := by cases x <;> rfl

@[simp] theorem sub_nan (x : F) : x - F.nan = F.nan := by cases x <;> rfl

@[simp] theorem fin_sub_fin (a b : ℚ) : F.fin a - F.fin b = F.fin (a - b) :=
  rfl

@[simp] theorem nan_mul (x : F) : F.nan * x = F.nan := by cases x <;> rfl

@[simp] theorem mul_nan (x : F) : x * F.nan = F.nan := by cases x <;> rfl

@[simp] theorem fin_mul_fin (a b : ℚ) : F.fin a * F.fin b = F.fin (a * b) :=
  rfl

@[simp] theorem nan_div (x : F) : F.nan / x = F.nan := by cases x <;> rfl

@[simp] theorem div_nan (x : F) : x / F.nan = F.nan := by cases x <;> rfl

@[simp] theorem fin_div_fin (a b : ℚ) :
    F.fin a / F.fin b = if b = 0 then F.nan else F.fin (a / b) := rfl

@[simp] theorem neg_nan : F.nan.neg = F.nan := rfl

@[simp] theorem neg_fin (a : ℚ) : (F.fin a).neg = F.fin (-a) := rfl

@[simp] theorem gt_nan (y : F) : F.gt F.nan y = false := rfl

@[simp] theorem gt_fin_fin (a b : ℚ) :
    (F.fin a).gt (F.fin b) = decide (b < a) := rfl

@[simp] theorem toQ_nan : F.nan.toQ = 0 := rfl

@[simp] theorem toQ_fin (q : ℚ) : (F.fin q).toQ = q := rfl

end F

@[simp] theorem fwhere_true (a b : F) : fwhere true a b = a := rfl

@[simp] theorem fwhere_false (a b : F) : fwhere false a b = b := rfl

@[simp] theorem powF_fin (E : Env) (a e : ℚ) :
    powF E (F.fin a) e = F.fin (E.powq a e) := rfl

@[simp] theorem powF_nan (E : Env) (e : ℚ) :
    powF E F.nan e = if e = 0 then F.fin 1 else F.nan := rfl

@[simp] theorem zero_to_nan_nan : zero_to_nan F.nan = F.nan := rfl

@[simp] theorem zero_to_nan_fin (q : ℚ) :
    zero_to_nan (F.fin q) = if q = 0 then F.nan else F.fin q := rfl

@[simp] theorem nan_to_num_nan_id (x : F) : nan_to_num_nan x = x := rfl

/-- Rounding up to even always gives a multiple of 2. -/
theorem evenize_mod (n : ℕ) : evenize n % 2 = 0 := by
  unfold evenize; split <;> omega

/-- The closure tower built by add_ejection_event evaluates to the
steady-state rate plus the sum of the events' Gaussian terms. -/
theorem jml_t_eq_sum (E : Env) (ss t : ℚ) (l : List Event) :
    jml_t E ss l t = ss + (l.map fun e =>
      (e.peak_jml - ss) *
        E.expq (-(t - e.t_0) ^ 2 / (2 * sigma_e E e ^ 2))).sum := by
  unfold jml_t
  suffices h : ∀ (l2 : List Event) (a : ℚ),
      l2.foldl (fun acc e =>
        acc + (e.peak_jml - ss) *
          E.expq (-(t - e.t_0) ^ 2 / (2 * sigma_e E e ^ 2))) a =
      a + (l2.map fun e =>
        (e.peak_jml - ss) *
          E.expq (-(t - e.t_0) ^ 2 / (2 * sigma_e E e ^ 2))).sum by
    exact h l ss
  intro l2
  induction l2 with
  | nil => intro a; simp
  | cons x xs ih => intro a; simp [ih, add_assoc]

/- ------------------------------------------------------------------ -/
/- Claim theorems. -/

/-- C1: for every voxel whose fill factor is NaN (the voxel lies outside
the jet), the values returned at that voxel by number_density,
temperature, ion_fraction and every one of the three velocity components
returned by vel are also NaN. -/
theorem fill_nan_propagates {V : Type} (E : Env) (par : JetParams)
    (g : Geom V) (bu : Burst) (v : V) (h : g.ff v = F.nan) :
    number_density E par g bu v = F.nan ∧
    temperature E par g v = F.nan ∧
    ion_fraction E par g v = F.nan ∧
    (velocity E par g v).1 = F.nan ∧
    (velocity E par g v).2.1 = F.nan ∧
    (velocity E par g v).2.2 = F.nan := by
  refine ⟨?_, ?_, ?_, ?_, ?_, ?_⟩ <;>
    simp [number_density, temperature, ion_fraction, velocity, h, fwhere]

/-- Witness for C1 at a concrete outside-jet voxel. -/
theorem fill_nan_propagates_witness :
    g0.ff () = F.nan ∧
    (number_density E0 par0 g0 bu0 () = F.nan ∧
     temperature E0 par0 g0 () = F.nan ∧
     ion_fraction E0 par0 g0 () = F.nan ∧
     (velocity E0 par0 g0 ()).1 = F.nan ∧
     (velocity E0 par0 g0 ()).2.1 = F.nan ∧
     (velocity E0 par0 g0 ()).2.2 = F.nan) :=
  ⟨rfl, fill_nan_propagates E0 par0 g0 bu0 () rfl⟩

/-- C2: for a voxel not rejected by the centroid quick-reject test, the
fill-factor computation classifies it by its 8 corner vertices (inside
means w <= w(r) and |r| >= r_0 after transforming to (r, w, phi)): all 8
inside gives fill factor exactly 1 and area exactly 1, none inside leaves
the voxel excluded (NaN), a strict subset gives fill factor exactly 0.5
and area exactly 1.0, and any resulting value not greater than 1e-6 is
replaced by NaN. -/
theorem fill_factor_classification (E : Env) (par : JetParams)
    (rc wc x y z : ℚ) (hq : quick_reject E par rc wc = false) :
    (n_inside E par x y z = 8 →
      fill_factor_voxel E par rc wc x y z = (F.fin 1, F.fin 1)) ∧
    (n_inside E par x y z = 0 →
      fill_factor_voxel E par rc wc x y z = (F.nan, F.nan)) ∧
    (n_inside E par x y z ≠ 8 → n_inside E par x y z ≠ 0 →
      fill_factor_voxel E par rc wc x y z = (F.fin (1/2), F.fin 1)) ∧
    (∀ q : ℚ, ¬ (1/1000000 : ℚ) < q → thresh q = F.nan) := by
  refine ⟨?_, ?_, ?_, ?_⟩
  · intro h8
    simp only [fill_factor_voxel, ff_area_raw, hq, Bool.false_eq_true,
      if_false, h8, if_true, thresh]
    norm_num
  · intro h0
    have h8 : n_inside E par x y z ≠ 8 := by omega
    simp only [fill_factor_voxel, ff_area_raw, hq, Bool.false_eq_true,
      if_false, h8, h0, if_true, thresh]
    norm_num
  · intro h8 h0
    simp only [fill_factor_voxel, ff_area_raw, hq, Bool.false_eq_true,
      if_false, h8, h0, if_true, thresh]
    norm_num
  · intro q hqle
    unfold thresh
    exact if_neg hqle

/-- Witness for C2 at a concrete voxel that passes the quick-reject test
and has no vertex inside the jet. -/
theorem fill_factor_classification_witness :
    quick_reject E0 par0 1 1 = false ∧ n_inside E0 par0 0 0 0 = 0 ∧
    fill_factor_voxel E0 par0 1 1 0 0 0 = (F.nan, F.nan) :=
  ⟨by norm_num [quick_reject, diag, w_r, E0, par0],
   by norm_num [n_inside, vert_inside, vert_xyz, w_r, E0, par0,
     List.finRange, List.countP, List.countP.go, List.ofFn],
   (fill_factor_classification E0 par0 1 1 0 0 0
      (by norm_num [quick_reject, diag, w_r, E0, par0])).2.1
     (by norm_num [n_inside, vert_inside, vert_xyz, w_r, E0, par0,
        List.finRange, List.countP, List.countP.go, List.ofFn])⟩

/-- C10: after the fill-factor computation, every fill-factor entry is
NaN, 0.5 or 1.0, and every area entry is NaN or 1.0; no other value
occurs. -/
theorem fill_factor_value_set (E : Env) (par : JetParams)
    (rc wc x y z : ℚ) :
    ((fill_factor_voxel E par rc wc x y z).1 = F.nan ∨
     (fill_factor_voxel E par rc wc x y z).1 = F.fin (1/2) ∨
     (fill_factor_voxel E par rc wc x y z).1 = F.fin 1) ∧
    ((fill_factor_voxel E par rc wc x y z).2 = F.nan ∨
     (fill_factor_voxel E par rc wc x y z).2 = F.fin 1) := by
  unfold fill_factor_voxel ff_area_raw
  split_ifs with hq h8 h0 <;> constructor <;> norm_num [thresh]

/-- C5: the free-free observables agree between a scalar frequency and a
one-element frequency array, but optical_depth_rrl does not: its array
path with collapse=True preallocates the uncollapsed 4-D shape
(nfreq, nx, ny, nz) (the collapse branches are inverted relative to
optical_depth_ff) and the collapsed (nx, nz) map cannot be broadcast into
a (nx, ny, nz) slot, so on the 50 x 400 x 50 test grid the call raises a
ValueError where the scalar path returns the (50, 50) map. -/
theorem rrl_array_scalar_mismatch :
    optical_depth_rrl_shape 1 50 400 50 true = Except.error () ∧
    optical_depth_rrl_shape_scalar 50 400 50 true = [50, 50] ∧
    optical_depth_ff_shape 1 50 400 50 true = Except.ok [1, 50, 50] ∧
    optical_depth_ff_shape_scalar 50 400 50 true = [50, 50] ∧
    flux_ff_shape 1 50 400 50 = Except.ok [1, 50, 50] := by
  refine ⟨?_, rfl, ?_, rfl, ?_⟩ <;> rfl

/-- C6: with collapse=False only the scalar-frequency paths return the
full voxel cube; the array paths cannot: optical_depth_ff preallocates
(nfreq, nx, ny, nx) - nx instead of nz in the last axis - which fails on
any grid with nx different from nz, and optical_depth_rrl preallocates
the collapsed shape (nfreq, nx, nz), into which the (nx, ny, nz) cube
cannot be broadcast. -/
theorem collapse_false_allocation_mismatch :
    optical_depth_ff_shape 1 50 400 60 false = Except.error () ∧
    optical_depth_rrl_shape 1 50 400 50 false = Except.error () ∧
    optical_depth_ff_shape_scalar 50 400 60 false = [50, 400, 60] ∧
    optical_depth_rrl_shape_scalar 50 400 50 false = [50, 400, 50] := by
  refine ⟨?_, ?_, rfl, rfl⟩ <;> rfl

/-- C7: for a single ejection event with peak time t_0 and peak rate
peak_jml, the mass-loss-rate function at t = t_0 is exactly
steady_state + (peak_jml - steady_state). -/
theorem jml_peak_at_t0 (E : Env) (ss : ℚ) (e : Event)
    (_hsig : sigma_e E e ≠ 0) (hexp : E.expq 0 = 1) :
    jml_t E ss [e] e.t_0 = ss + (e.peak_jml - ss) := by
  simp [jml_t, hexp]

/-- Witness for C7 at a concrete event. -/
theorem jml_peak_at_t0_witness :
    sigma_e E0 ev0 ≠ 0 ∧ E0.expq 0 = 1 ∧
    jml_t E0 2 [ev0] ev0.t_0 = 2 + (ev0.peak_jml - 2) :=
  ⟨by norm_num [sigma_e, E0, ev0], rfl,
   jml_peak_at_t0 E0 2 ev0 (by norm_num [sigma_e, E0, ev0]) rfl⟩

/-- C8: the value of the mass-loss-rate function is independent of the
order in which the ejection events were added; in exact arithmetic the
sum of Gaussian terms is invariant under permutation of the event
list. -/
theorem jml_order_invariant (E : Env) (ss t : ℚ) (l1 l2 : List Event)
    (h : l1.Perm l2) : jml_t E ss l1 t = jml_t E ss l2 t := by
  rw [jml_t_eq_sum, jml_t_eq_sum]
  exact congrArg (ss + ·) (List.Perm.sum_eq (List.Perm.map _ h))

/-- Witness for C8: two events added in both orders. -/
theorem jml_order_invariant_witness :
    jml_t E0 2 [ev0, ev1] 3 = jml_t E0 2 [ev1, ev0] 3 :=
  jml_order_invariant E0 2 3 [ev0, ev1] [ev1, ev0]
    (List.Perm.swap ev1 ev0 [])

/-- C9: the stored grid cell counts are always even, and when l_z is
given the counts are those of lz_to_grid_dims, regardless of any
explicitly supplied counts. -/
theorem grid_dims_even_lz_override (E : Env) (par : JetParams)
    (l_z : Option ℚ) (n_x n_y n_z : ℕ) :
    ((init_grid_dims E par l_z n_x n_y n_z).1 % 2 = 0 ∧
     (init_grid_dims E par l_z n_x n_y n_z).2.1 % 2 = 0 ∧
     (init_grid_dims E par l_z n_x n_y n_z).2.2 % 2 = 0) ∧
    ∀ l, l_z = some l →
      init_grid_dims E par l_z n_x n_y n_z = lz_to_grid_dims E par l := by
  constructor
  · cases l_z with
    | some l =>
        simp only [init_grid_dims, lz_to_grid_dims]
        exact ⟨evenize_mod _, evenize_mod _, evenize_mod _⟩
    | none => simp [init_grid_dims, Nat.mul_mod_left]
  · intro l hl
    subst hl
    rfl

/-- Witness for C9: a concrete l_z overrides the supplied counts, and a
concrete odd count is rounded up to even. -/
theorem grid_dims_even_lz_override_witness :
    init_grid_dims E0 par0 (some 2) 5 6 7 = lz_to_grid_dims E0 par0 2 ∧
    (init_grid_dims E0 par0 none 5 6 7).1 % 2 = 0 :=
  ⟨(grid_dims_even_lz_override E0 par0 (some 2) 5 6 7).2 2 rfl,
   (grid_dims_even_lz_override E0 par0 none 5 6 7).1.1⟩

/-- C3: for a voxel with positive fill factor whose far r-boundary
b = |r| + c/2 lies beyond r_0, the temperature is the exact cell average
(F(b) - F(a)) / (b - a) of the power-law integral with the near edge
clamped at a = max(|r| - c/2, r_0); a voxel whose far boundary lies at or
below r_0 has temperature NaN. -/
theorem temperature_cell_average {V : Type} (E : Env) (par : JetParams)
    (g : Geom V) (v : V) (hcs : 0 < par.c_size) (hmr : par.mod_r_0 ≠ 0)
    (hqT : par.q_T + 1 ≠ 0) :
    ((g.ff v).gt (F.fin 0) = true →
      par.r_0 < |g.rr v| + par.c_size / 2 →
      temperature E par g v = temperature_spec E par g v) ∧
    (|g.rr v| + par.c_size / 2 ≤ par.r_0 →
      temperature E par g v = F.nan) := by
  constructor
  · intro hff hrb
    have hb : ¬ (|g.rr v| + par.c_size / 2 ≤ par.r_0) := not_le.mpr hrb
    unfold temperature temperature_spec cell_avg span_ab pl_indef
    simp only [hff, fwhere_true, if_neg hb]
    by_cases ha : |g.rr v| - par.c_size / 2 ≤ par.r_0
    · rw [if_pos ha, max_eq_right ha]
      have hbr : |g.rr v| + par.c_size / 2 - par.r_0 ≠ 0 :=
        sub_ne_zero.mpr (ne_of_gt hrb)
      simp [hmr, hqT, hbr]
    · rw [if_neg ha, max_eq_left (le_of_lt (not_le.mp ha))]
      have hbr : |g.rr v| + par.c_size / 2 -
          (|g.rr v| - par.c_size / 2) ≠ 0 := by
        have hring : |g.rr v| + par.c_size / 2 -
            (|g.rr v| - par.c_size / 2) = par.c_size := by ring
        rw [hring]; exact ne_of_gt hcs
      simp [hmr, hqT, hbr, hcs.ne']
  · intro hble
    unfold temperature cell_avg span_ab pl_indef
    simp [fwhere, if_pos hble, hqT]

/-- Witness for C3 at a concrete inside-jet voxel. -/
theorem temperature_cell_average_witness :
    (g1.ff ()).gt (F.fin 0) = true ∧
    par0.r_0 < |g1.rr ()| + par0.c_size / 2 ∧
    temperature E0 par0 g1 () = temperature_spec E0 par0 g1 () :=
  ⟨by norm_num [g1], by norm_num [g1, par0],
   (temperature_cell_average E0 par0 g1 () (by norm_num [par0])
      (by norm_num [par0]) (by norm_num [par0])).1
     (by norm_num [g1]) (by norm_num [g1, par0])⟩

/-- C4: a voxel with NaN fill factor has a NaN integrand in
emission_measure, optical_depth_ff and optical_depth_rrl, contributes
exactly 0 to the nansum line-of-sight collapse, and the collapsed maps
are never NaN. -/
theorem nan_voxel_contributes_zero {V : Type} (E : Env) (par : JetParams)
    (g : Geom V) (bu : Burst) (kappa : V → F) (nu : ℚ) {m : ℕ}
    (losline : Fin m → V) (l : Fin m) (h : g.ff (losline l) = F.nan) :
    em_integrand E par g bu (losline l) = F.nan ∧
    tau_ff_integrand E par g bu nu (losline l) = F.nan ∧
    tau_rrl_integrand E par g kappa (losline l) = F.nan ∧
    (em_integrand E par g bu (losline l)).toQ = 0 ∧
    (tau_ff_integrand E par g bu nu (losline l)).toQ = 0 ∧
    (tau_rrl_integrand E par g kappa (losline l)).toQ = 0 ∧
    em_map E par g bu losline ≠ F.nan ∧
    tau_ff_map E par g bu nu losline ≠ F.nan ∧
    tau_rrl_map E par g kappa losline ≠ F.nan := by
  have h1 : em_integrand E par g bu (losline l) = F.nan := by
    simp [em_integrand, h]
  have h2 : tau_ff_integrand E par g bu nu (losline l) = F.nan := by
    simp [tau_ff_integrand, h]
  have h3 : tau_rrl_integrand E par g kappa (losline l) = F.nan := by
    simp [tau_rrl_integrand, h]
  exact ⟨h1, h2, h3, by rw [h1]; rfl, by rw [h2]; rfl, by rw [h3]; rfl,
    by simp [em_map], by simp [tau_ff_map], by simp [tau_rrl_map]⟩

/-- A concrete abstract line opacity for the C4 witness. -/
def kappa0 : Unit → F := fun _ => F.fin 1

/-- Witness for C4 on a one-voxel line of sight through an outside-jet
voxel. -/
theorem nan_voxel_contributes_zero_witness :
    g0.ff () = F.nan ∧
    em_integrand E0 par0 g0 bu0 () = F.nan ∧
    (em_integrand E0 par0 g0 bu0 ()).toQ = 0 ∧
    em_map E0 par0 g0 bu0 (fun _ : Fin 1 => ()) ≠ F.nan :=
  ⟨rfl,
   (nan_voxel_contributes_zero E0 par0 g0 bu0 kappa0 1
      (fun _ : Fin 1 => ()) 0 rfl).1,
   (nan_voxel_contributes_zero E0 par0 g0 bu0 kappa0 1
      (fun _ : Fin 1 => ()) 0 rfl).2.2.2.1,
   (nan_voxel_contributes_zero E0 par0 g0 bu0 kappa0 1
      (fun _ : Fin 1 => ()) 0 rfl).2.2.2.2.2.2.1⟩

end RaJePy
